import Mathlib

/-!
Verification of `src/mumble_llm_chat.py` (a Mumble chat bot bridging a chat
server with an LLM completion endpoint).

The Python source is shallowly embedded: each Python function becomes a Lean
function over explicit inputs.  External collaborators (the `requests` HTTP
library, the `pymumble` transport) are modelled as explicit oracle values:
the HTTP call's outcome is an `HttpOutcome`, the live user/channel registry
is a `World`, and side effects (moderation calls, text sends, log lines)
are emitted as event traces.

Python string operations are modelled over `List Char`:
`str.strip` / `str.split()` / `str.replace` / `str.lower` / `str.startswith`.
-/

set_option maxRecDepth 100000

/-- Whitespace as recognized by Python `str.strip` / `str.split()`
(space, tab, newline, carriage return, vertical tab, form feed). -/
def isWs (c : Char) : Bool :=
  c = ' ' || c = '\t' || c = '\n' || c = '\r' || c = '\x0b' || c = '\x0c'

/-- Drop leading and trailing whitespace from a character list. -/
def trimL (l : List Char) : List Char :=
  (((l.dropWhile isWs).reverse).dropWhile isWs).reverse

/-- Python `s.strip()`. -/
def pyStrip (s : String) : String := ⟨trimL s.data⟩

/-- Helper for `pySplit`: accumulate the current word (reversed) while
scanning; whitespace runs separate words and produce no empty words. -/
def wordsAux : List Char → List Char → List (List Char)
  | [], acc => if acc.isEmpty then [] else [acc.reverse]
  | c :: rest, acc =>
    if isWs c then
      if acc.isEmpty then wordsAux rest [] else acc.reverse :: wordsAux rest []
    else wordsAux rest (c :: acc)

/-- Python `s.split()` (no separator): split on runs of whitespace,
discarding empty tokens. -/
def pySplit (s : String) : List String :=
  (wordsAux s.data []).map fun l => ⟨l⟩

/-- Fuelled replacement of non-overlapping occurrences of `pat` by `rep`,
scanning left to right (the semantics of Python `str.replace`).  The fuel
is an upper bound on the number of characters still to be scanned. -/
def replaceFuel : Nat → List Char → List Char → List Char → List Char
  | 0, l, _, _ => l
  | _ + 1, [], _, _ => []
  | fuel + 1, c :: rest, pat, rep =>
    if pat.isPrefixOf (c :: rest) then
      rep ++ replaceFuel fuel ((c :: rest).drop pat.length) pat rep
    else
      c :: replaceFuel fuel rest pat rep

/-- Python `s.replace(pat, rep)` for a non-empty `pat`: replaces every
non-overlapping occurrence, left to right.  (For an empty `pat` we return
`s` unchanged; the source only ever replaces the non-empty `"COMMAND:"`.) -/
def pyReplace (s pat rep : String) : String :=
  if pat.data.isEmpty then s else ⟨replaceFuel s.data.length s.data pat.data rep.data⟩

/-- Python `s.startswith(pre)`. -/
def pyStartsWith (s pre : String) : Bool := pre.data.isPrefixOf s.data

/-- Python `s.lower()` (per-character case folding). -/
def pyLower (s : String) : String := ⟨s.data.map Char.toLower⟩

/-- The Python exceptions that the embedded code can raise. -/
inductive PyError where
  | attributeError (method : String)
  | indexError
deriving Repr, DecidableEq

/-- The text used when an exception is interpolated into a log line. -/
def pyErrorMsg : PyError → String
  | .attributeError m => "AttributeError: " ++ m
  | .indexError => "list index out of range"

/-- A JSON value, as decoded by `response.json()`. -/
inductive Json where
  | null
  | bool (b : Bool)
  | num (n : Int)
  | str (s : String)
  | arr (elems : List Json)
  | obj (fields : List (String × Json))

/-- Python truthiness of a decoded JSON value (`None`, `False`, `0`, `""`,
`[]`, `{}` are falsy). -/
def Json.truthy : Json → Bool
  | .null => false
  | .bool b => b
  | .num n => n != 0
  | .str s => !s.data.isEmpty
  | .arr elems => !elems.isEmpty
  | .obj fields => !fields.isEmpty

/-- Python `j.get(key, default)`: only a dict has `.get`; on any other
value an `AttributeError` is raised. -/
def Json.get (j : Json) (key : String) (default : Json) : Except PyError Json :=
  match j with
  | .obj fields =>
    match fields.find? fun p => p.1 = key with
    | some p => .ok p.2
    | none => .ok default
  | _ => .error (.attributeError "get")

/-- Python `j.strip()`: only a string has `.strip`; on any other value an
`AttributeError` is raised. -/
def Json.stripStr : Json → Except PyError String
  | .str s => .ok (pyStrip s)
  | _ => .error (.attributeError "strip")

/-- Outcome of `requests.post(LLAMA_API_URL, json=payload, timeout=120)`
followed by `raise_for_status()` and `response.json()`.
`requestException` covers every `requests.exceptions.RequestException`:
connection refused, timeout, non-2xx status (raised by `raise_for_status`),
and a body that fails JSON decoding.  `success` carries the decoded body. -/
inductive HttpOutcome where
  | requestException (reason : String)
  | success (body : Json)

/-- Embedding of `generate_response` (src lines 39–54).  The `try` block catches exactly
`requests.exceptions.RequestException` and returns `None`; on a decoded
body it evaluates `response.json().get("content", "").strip() if
response.json() else None`.  Exceptions other than `RequestException`
(e.g. `AttributeError` from `.get` on a non-dict or `.strip` on a
non-string) are NOT caught and propagate to the caller. -/
def generate_response (outcome : HttpOutcome) : Except PyError (Option String) :=
  match outcome with
  | .requestException _ => .ok none
  | .success body =>
    if body.truthy then
      match body.get "content" (.str "") with
      | .error e => .error e
      | .ok field =>
        match field.stripStr with
        | .error e => .error e
        | .ok s => .ok (some s)
    else
      .ok none

/-- How the caller (`on_message_received`, `if response:`) classifies a
generation result: `None` and the empty string are both treated as failure. -/
def isGenFailure : Option String → Bool
  | none => true
  | some s => s == ""

/-- Constant `MUMBLE_USERNAME` (src line 10). -/
def MUMBLE_USERNAME : String := "ChatBot"

/-- Constant `MUMBLE_CHANNEL` (src line 12). -/
def MUMBLE_CHANNEL : String := "Root"

/-- Constant `INSTRUCTIONS` (src lines 18–30), reproduced byte for byte. -/
def INSTRUCTIONS : String :=
  "\nYou are a Mumble Server Chatbot. Your task is to assist users and manage the Mumble server. \nYou can perform the following actions:\n- Respond to user messages in a friendly and helpful manner.\n- Execute server commands when requested. Available commands:\n  - /move <username> <channel>: Move a user to a specific channel.\n  - /mute <username>: Mute a user.\n  - /unmute <username>: Unmute a user.\n  - /kick <username>: Kick a user from the server.\n  - /help: List available commands.\nIf a user requests a command, respond with the command in the format: COMMAND:<command>.\nExample: COMMAND:/move John General\n"

/-- Constant `help_message` (src lines 104–111), reproduced byte for byte. -/
def help_message : String :=
  "\n                Available commands:\n                - /move <username> <channel>: Move a user to a specific channel.\n                - /mute <username>: Mute a user.\n                - /unmute <username>: Unmute a user.\n                - /kick <username>: Kick a user from the server.\n                - /help: List available commands.\n                "

/-- The live registry of the Mumble session at the moment a command runs:
usernames present on the server and channels (name paired with
`channel_id`).  This models `mumble.users` / `mumble.channels`. -/
structure World where
  users : List String
  channels : List (String × Nat)
deriving Repr, DecidableEq

/-- Lookup `mumble.users.find_by_name(name)`: the user handle, or `None`. -/
def World.userByName (w : World) (name : String) : Option String :=
  w.users.find? fun u => u = name

/-- Lookup `mumble.channels.find_by_name(name)`: the channel handle, or `None`. -/
def World.channelByName (w : World) (name : String) : Option (String × Nat) :=
  w.channels.find? fun c => c.1 = name

/-- A moderation or side-effect action performed against the Mumble session. -/
inductive ModAction where
  | moveUser (username : String) (channelId : Nat)
  | muteUser (username : String)
  | unmuteUser (username : String)
  | kickUser (username : String)
  | sendText (channel : String) (text : String)
deriving Repr, DecidableEq

/-- A log record (`logging.info` / `logging.error` / `logging.warning`). -/
inductive LogEv where
  | info (msg : String)
  | error (msg : String)
  | warning (msg : String)
deriving Repr, DecidableEq

/-- An event emitted by `execute_command`: an action or a log line. -/
inductive Ev where
  | act (a : ModAction)
  | log (l : LogEv)
deriving Repr, DecidableEq

/-- The structured command extracted by the branch conditions of
`execute_command` (src lines 66–116); `invalid` carries the processed
command text that the final `else` logs. -/
inductive Cmd where
  | move (username channel : String)
  | mute (username : String)
  | unmute (username : String)
  | kick (username : String)
  | help
  | invalid (raw : String)
deriving Repr, DecidableEq

/-- Src line 62: `command = command.replace("COMMAND:", "").strip()`.
Note that Python `str.replace` removes EVERY occurrence of `"COMMAND:"`,
not only the leading marker. -/
def commandText (reply : String) : String :=
  pyStrip (pyReplace reply "COMMAND:" "")

/-- The classification performed by the `if/elif` conditions of
`execute_command` (src lines 63–116) on the processed command text:
`parts = command.split(); action = parts[0].lower()`, then the guards
`action == "/move" and len(parts) == 3`, …, `action == "/help"` (note: no
arity check on `/help`), else invalid.  `none` is the case `parts == []`,
where `parts[0]` raises `IndexError`. -/
def parseCommand0 (command : String) : Option Cmd :=
  let parts := pySplit command
  if parts.isEmpty then none
  else
    let action := pyLower (parts.headD "")
    if action = "/move" && parts.length = 3 then
      some (.move (parts.getD 1 "") (parts.getD 2 ""))
    else if action = "/mute" && parts.length = 2 then
      some (.mute (parts.getD 1 ""))
    else if action = "/unmute" && parts.length = 2 then
      some (.unmute (parts.getD 1 ""))
    else if action = "/kick" && parts.length = 2 then
      some (.kick (parts.getD 1 ""))
    else if action = "/help" then
      some .help
    else
      some (.invalid command)

/-- The parse stage of the marker protocol, as the spec's CommandParser:
a reply not starting with `COMMAND:` is a plain reply (src line 61 guard /
src line 140); otherwise the processed text is classified by
`parseCommand0`; `emptyCommand` is the `parts[0]` `IndexError` case. -/
inductive ParseResult where
  | plainReply (text : String)
  | cmd (c : Cmd)
  | emptyCommand
deriving Repr, DecidableEq

/-- Parse of a generated reply, factoring src lines 61–64. -/
def parseReply (reply : String) : ParseResult :=
  if pyStartsWith reply "COMMAND:" then
    match parseCommand0 (commandText reply) with
    | none => .emptyCommand
    | some c => .cmd c
  else .plainReply reply

/-- The body of each `elif` branch of `execute_command` (src lines 66–116):
resolve the referenced entities in the live registry and either perform the
moderation action or log the not-found error.  The moderation calls
themselves (`user.move` / `user.mute` / `user.unmute` / `user.kick` /
`send_text_message` on a found channel) are transport calls modelled as
succeeding.  In the `/help` branch the source calls `.send_text_message`
directly on the result of `find_by_name`, so a missing home channel raises
`AttributeError` (src line 112). -/
def interpCmd (c : Cmd) (w : World) : Except PyError (List Ev) :=
  match c with
  | .move username channel =>
    match w.userByName username, w.channelByName channel with
    | some _, some ch =>
      .ok [.act (.moveUser username ch.2),
           .log (.info ("Moved " ++ username ++ " to " ++ channel ++ "."))]
    | _, _ =>
      .ok [.log (.error ("User " ++ username ++ " or channel " ++ channel ++ " not found."))]
  | .mute username =>
    match w.userByName username with
    | some _ => .ok [.act (.muteUser username), .log (.info ("Muted " ++ username ++ "."))]
    | none => .ok [.log (.error ("User " ++ username ++ " not found."))]
  | .unmute username =>
    match w.userByName username with
    | some _ => .ok [.act (.unmuteUser username), .log (.info ("Unmuted " ++ username ++ "."))]
    | none => .ok [.log (.error ("User " ++ username ++ " not found."))]
  | .kick username =>
    match w.userByName username with
    | some _ => .ok [.act (.kickUser username), .log (.info ("Kicked " ++ username ++ "."))]
    | none => .ok [.log (.error ("User " ++ username ++ " not found."))]
  | .help =>
    match w.channelByName MUMBLE_CHANNEL with
    | some _ =>
      .ok [.act (.sendText MUMBLE_CHANNEL help_message), .log (.info "Displayed help message.")]
    | none => .error (.attributeError "send_text_message")
  | .invalid raw =>
    .ok [.log (.error ("Invalid command: " ++ raw))]

/-- The `try` body of `execute_command` (src lines 61–116).  The source
inlines classification and action inside one `if/elif` chain; here the
branch CONDITIONS are factored into `parseCommand0` and the branch BODIES
into `interpCmd`, preserving the guard order, the processed text, and every
effect.  A reply without the marker takes no action (the `if` has no
`else`). -/
def execute_command_inner (command : String) (w : World) : Except PyError (List Ev) :=
  if pyStartsWith command "COMMAND:" then
    match parseCommand0 (commandText command) with
    | none => .error .indexError
    | some c => interpCmd c w
  else .ok []

/-- Embedding of `execute_command` (src lines 56–119): the whole body runs inside
`try: … except Exception as e: logging.error(f"Failed to execute command:
{e}")`, so no exception escapes; an inner exception becomes a log line. -/
def execute_command (command : String) (w : World) : List Ev :=
  match execute_command_inner command w with
  | .ok evs => evs
  | .error e => [.log (.error ("Failed to execute command: " ++ pyErrorMsg e))]

/-- An inbound chat message as delivered by the transport callback:
`message.actor` (the author's username) and `message.message` (the text). -/
structure Message where
  actor : String
  message : String
deriving Repr, DecidableEq

/-- An event emitted by the dispatcher `on_message_received`. -/
inductive DEv where
  | logInfo (msg : String)
  | logWarning (msg : String)
  | logError (msg : String)
  | generateCall (payloadPrompt : String)
  | sendText (channel : String) (text : String)
  | execEv (e : Ev)
  | raised (e : PyError)
deriving Repr, DecidableEq

/-- Embedding of `on_message_received` (src lines 121–149), as a trace of events.
Inputs beyond the message itself are the oracles for the two external
calls this handler makes: `backend` is the outcome of the HTTP round trip
performed inside `generate_response`, `w` is the live registry, and
`sendOutcome` is the outcome of `send_text_message` on the (found) home
channel (`none` = delivered, `some m` = the call raised an exception whose
text is `m`).  The payload prompt is `f"{INSTRUCTIONS} {prompt}"` built in
`generate_response` (src line 44) from the stripped message text.
`generate_response` is called outside any `try`, so if it raises (see
`generate_response`) the exception leaves the handler: the trace ends with
`raised`.  The plain-reply send sits in its own `try/except Exception`
(src lines 144–147): a missing home channel (`find_by_name` gives `None`,
so `.send_text_message` raises `AttributeError`) or a failing send is
logged and the handler returns normally. -/
def on_message_received (msg : Message) (backend : HttpOutcome) (w : World)
    (sendOutcome : Option String) : List DEv :=
  let text := pyStrip msg.message
  if msg.actor = MUMBLE_USERNAME then []
  else
    [.logInfo ("Received message from " ++ msg.actor ++ ": " ++ text),
     .generateCall (INSTRUCTIONS ++ " " ++ text)] ++
    match generate_response backend with
    | .error e => [.raised e]
    | .ok response =>
      if isGenFailure response then
        [.logWarning "No response generated or API request failed."]
      else
        let s := response.getD ""
        [.logInfo ("Generated response: " ++ s)] ++
        if pyStartsWith s "COMMAND:" then
          (execute_command s w).map DEv.execEv
        else
          match w.channelByName MUMBLE_CHANNEL with
          | none =>
            [.logError ("Failed to send message to Mumble: " ++
              pyErrorMsg (.attributeError "send_text_message"))]
          | some _ =>
            match sendOutcome with
            | some m => [.logError ("Failed to send message to Mumble: " ++ m)]
            | none => [.sendText MUMBLE_CHANNEL s]

/-- Constant `retry_attempts` (src line 174). -/
def retry_attempts : Nat := 5

/-- An event emitted by the `main` retry loop (src lines 169–199). -/
inductive MEv where
  | connectAttempt
  | logConnectFailed
  | logConnected
  | logConnError
  | logRetry (displayed total : Nat)
  | sleepSecs (n : Nat)
  | logFatal
  | logShutdown
  | sessionStop
deriving Repr, DecidableEq

/-- What happens during one iteration of the `while attempt <
retry_attempts` loop.  `connectFails`: `connect_to_mumble` raises an
`Exception` (it logs, re-raises, and `main` handles it in `except
Exception`).  `interruptDuringConnect`: a `KeyboardInterrupt` arrives while
connecting (not caught by `connect_to_mumble`'s `except Exception`, caught
by `main`'s `except KeyboardInterrupt`).  `connectsThenInterrupt`: the
handshake succeeds and the bot idles in `while True: time.sleep(1)` until a
`KeyboardInterrupt` (the only way out of the idle loop).
`interruptDuringRetrySleep`: the connect fails and a `KeyboardInterrupt`
arrives during the 5-second `time.sleep(5)` inside the `except Exception`
handler; it is caught by nothing (the surrounding `try`'s clauses do not
apply to its own handlers) and propagates, but `finally` still runs. -/
inductive IterOutcome where
  | connectFails
  | interruptDuringConnect
  | connectsThenInterrupt
  | interruptDuringRetrySleep
deriving Repr, DecidableEq

/-- How the process leaves the `main` loop: either the loop ends (a
`break`, or the attempt budget is spent) and `main` returns, or a
`KeyboardInterrupt` propagates out of `main` (the retry-sleep case). -/
inductive ExitWay where
  | loopEnded
  | interruptPropagated
deriving Repr, DecidableEq

/-- The `main` retry loop (src lines 169–199).  One call = one loop
iteration; `sched` says what the external world does on each attempt.
Event order inside an iteration follows the source: the connect attempt,
the logs of the reached handler, and then — because of `finally: if
mumble: mumble.stop()` — a `sessionStop` as the last event of every
iteration.  (`mumble` is assigned first thing inside `connect_to_mumble`;
the `Mumble(...)` constructor only stores configuration, so the handle
exists whenever a failure or interrupt surfaces.)  On a failed attempt the
source increments `attempt` and, if `attempt < retry_attempts` still
holds, logs `"Retrying connection... (Attempt {attempt + 1} of
{retry_attempts})"` (displaying `attempt + 2` counted from the failed
attempt) and sleeps 5 seconds; otherwise it logs the fatal message and
breaks.  The fuel argument bounds the remaining iterations; `runMain`
supplies `retry_attempts`, which suffices because every continuing
iteration increments `attempt`. -/
def mainLoop (sched : Nat → IterOutcome) : Nat → Nat → List MEv × ExitWay
  | 0, _ => ([], .loopEnded)
  | fuel + 1, attempt =>
    if attempt < retry_attempts then
      match sched attempt with
      | .interruptDuringConnect =>
        ([.connectAttempt, .logShutdown, .sessionStop], .loopEnded)
      | .connectsThenInterrupt =>
        ([.connectAttempt, .logConnected, .logShutdown, .sessionStop], .loopEnded)
      | .connectFails =>
        if attempt + 1 < retry_attempts then
          let rest := mainLoop sched fuel (attempt + 1)
          ([.connectAttempt, .logConnectFailed, .logConnError,
            .logRetry (attempt + 2) retry_attempts, .sleepSecs 5, .sessionStop] ++ rest.1,
           rest.2)
        else
          ([.connectAttempt, .logConnectFailed, .logConnError, .logFatal, .sessionStop],
           .loopEnded)
      | .interruptDuringRetrySleep =>
        if attempt + 1 < retry_attempts then
          ([.connectAttempt, .logConnectFailed, .logConnError,
            .logRetry (attempt + 2) retry_attempts, .sessionStop],
           .interruptPropagated)
        else
          ([.connectAttempt, .logConnectFailed, .logConnError, .logFatal, .sessionStop],
           .loopEnded)
    else ([], .loopEnded)

/-- Embedding of `main` (src lines 169–199): run the retry loop from `attempt = 0`. -/
def runMain (sched : Nat → IterOutcome) : List MEv × ExitWay :=
  mainLoop sched retry_attempts 0

/-- Spec-side description of the "post-marker text": the reply with only
the leading `COMMAND:` marker removed (used to compare the claimed marker
handling with the code's `replace`-all behaviour). -/
def stripLeadingMarker (reply : String) : String :=
  ⟨reply.data.drop "COMMAND:".data.length⟩

/-- Is a dispatcher event the outbound generation call? -/
def DEv.isGenerate : DEv → Bool
  | .generateCall _ => true
  | _ => false

/-- Is a `main`-loop event a connection attempt or a sleep?  (Used to read
the attempt/delay rhythm off a trace.) -/
def MEv.isAttemptOrSleep : MEv → Bool
  | .connectAttempt => true
  | .sleepSecs _ => true
  | _ => false

/-! ## Helper lemmas -/

/-- Lemma: `replaceFuel` on the empty list is the empty list, for any fuel. -/
theorem replaceFuel_nil : ∀ (f : Nat) (pat rep : List Char), replaceFuel f [] pat rep = []
  | 0, _, _ => rfl
  | _ + 1, _, _ => rfl

/-- A list decomposes as a prefix it starts with followed by the rest. -/
theorem eq_append_drop_of_isPrefixOf :
    ∀ (p l : List Char), p.isPrefixOf l = true → l = p ++ l.drop p.length
  | [], l, _ => by simp
  | a :: p', [], h => by simp [List.isPrefixOf] at h
  | a :: p', b :: l', h => by
    simp only [List.isPrefixOf, Bool.and_eq_true, beq_iff_eq] at h
    obtain ⟨rfl, h2⟩ := h
    simpa [List.drop_succ_cons] using
      congrArg (List.cons a) (eq_append_drop_of_isPrefixOf p' l' h2)

/-- A list is a prefix of itself followed by anything. -/
theorem isPrefixOf_append_self : ∀ (p t : List Char), p.isPrefixOf (p ++ t) = true
  | [], _ => by simp [List.isPrefixOf]
  | a :: p', t => by simp [List.isPrefixOf, isPrefixOf_append_self p' t]

/-- Lemma: `replaceFuel` does not depend on the fuel once the fuel covers the
list, provided the pattern is non-empty (`n` bounds the induction). -/
theorem replaceFuel_fuel_eq :
    ∀ (n : Nat) (l : List Char) (f₁ f₂ : Nat) (pat rep : List Char),
      pat ≠ [] → l.length ≤ n → l.length ≤ f₁ → l.length ≤ f₂ →
      replaceFuel f₁ l pat rep = replaceFuel f₂ l pat rep := by
  intro n
  induction n with
  | zero =>
    intro l f₁ f₂ pat rep hp hn h1 h2
    have hl : l = [] := List.length_eq_zero.mp (Nat.le_zero.mp hn)
    subst hl
    rw [replaceFuel_nil, replaceFuel_nil]
  | succ n ih =>
    intro l f₁ f₂ pat rep hp hn h1 h2
    cases l with
    | nil => rw [replaceFuel_nil, replaceFuel_nil]
    | cons c rest =>
      cases f₁ with
      | zero => simp at h1
      | succ a =>
        cases f₂ with
        | zero => simp at h2
        | succ b =>
          have hpatlen : 0 < pat.length := List.length_pos.mpr hp
          simp only [replaceFuel]
          by_cases hpre : pat.isPrefixOf (c :: rest) = true
          · rw [if_pos hpre, if_pos hpre]
            congr 1
            apply ih
            · exact hp
            · simp only [List.length_drop, List.length_cons] at *
              omega
            · simp only [List.length_drop, List.length_cons] at *
              omega
            · simp only [List.length_drop, List.length_cons] at *
              omega
          · rw [if_neg hpre, if_neg hpre]
            congr 1
            apply ih
            · exact hp
            · simp only [List.length_cons] at hn
              omega
            · simp only [List.length_cons] at h1
              omega
            · simp only [List.length_cons] at h2
              omega

/-- One replacement step at the front: replacing in `pat ++ t` (with the
canonical fuel) first removes the leading occurrence of `pat`. -/
theorem replaceFuel_marker_step (pc : Char) (pr t rep : List Char) :
    replaceFuel ((pc :: pr) ++ t).length ((pc :: pr) ++ t) (pc :: pr) rep =
      rep ++ replaceFuel t.length t (pc :: pr) rep := by
  have hpre : (pc :: pr).isPrefixOf (pc :: (pr ++ t)) = true :=
    isPrefixOf_append_self (pc :: pr) t
  rw [List.cons_append, List.length_cons]
  simp only [replaceFuel]
  rw [if_pos hpre]
  congr 1
  have hdrop : (pc :: (pr ++ t)).drop (pc :: pr).length = t := by
    rw [List.length_cons, List.drop_succ_cons]
    exact List.drop_left pr t
  rw [hdrop]
  apply replaceFuel_fuel_eq t.length t _ _ _ _ (by simp) (Nat.le_refl _)
  · simp only [List.length_append]
    omega
  · exact Nat.le_refl _

/-- Removing every `"COMMAND:"` from a reply that starts with the marker is
the same as dropping the leading marker and then removing every remaining
occurrence. -/
theorem replace_drop_marker (reply : String)
    (hm : pyStartsWith reply "COMMAND:" = true) :
    pyReplace reply "COMMAND:" "" = pyReplace (stripLeadingMarker reply) "COMMAND:" "" := by
  have hdec : reply.data = "COMMAND:".data ++ reply.data.drop "COMMAND:".data.length :=
    eq_append_drop_of_isPrefixOf _ _ hm
  have hne : "COMMAND:".data.isEmpty = false := rfl
  have hc : "COMMAND:".data = 'C' :: "OMMAND:".data := rfl
  simp only [pyReplace, hne, Bool.false_eq_true, if_false, stripLeadingMarker]
  congr 1
  conv_lhs => rw [hdec, hc]
  rw [replaceFuel_marker_step]
  rw [List.nil_append, ← hc]

/-- Unpacking a parse that yielded a structured command: the reply starts
with the marker and the classification of the processed text is that
command. -/
theorem parseReply_cmd {reply : String} {c : Cmd} (h : parseReply reply = .cmd c) :
    pyStartsWith reply "COMMAND:" = true ∧ parseCommand0 (commandText reply) = some c := by
  unfold parseReply at h
  cases hb : pyStartsWith reply "COMMAND:" with
  | false => rw [hb] at h; simp at h
  | true =>
    rw [hb] at h
    simp only [if_true] at h
    cases hp : parseCommand0 (commandText reply) with
    | none => rw [hp] at h; simp at h
    | some c' =>
      rw [hp] at h
      simp only [ParseResult.cmd.injEq] at h
      subst h
      exact ⟨rfl, rfl⟩

/-- Every iteration of the `main` loop ends by stopping the session
(the `finally` block), so any trace of the loop, run from a reachable
state, ends with `sessionStop`. -/
theorem mainLoop_ends_with_stop :
    ∀ (fuel attempt : Nat) (sched : Nat → IterOutcome),
      attempt < retry_attempts → retry_attempts ≤ attempt + fuel →
      ((mainLoop sched fuel attempt).1).getLast? = some .sessionStop := by
  intro fuel
  induction fuel with
  | zero =>
    intro attempt sched h1 h2
    exact absurd (Nat.lt_of_lt_of_le h1 h2) (by omega)
  | succ fuel ih =>
    intro attempt sched h1 h2
    simp only [mainLoop]
    rw [if_pos h1]
    cases sched attempt with
    | interruptDuringConnect => rfl
    | connectsThenInterrupt => rfl
    | connectFails =>
      by_cases h : attempt + 1 < retry_attempts
      · simp only [if_pos h, List.getLast?_append, ih (attempt + 1) sched h (by omega)]
        rfl
      · simp only [if_neg h]
        rfl
    | interruptDuringRetrySleep =>
      by_cases h : attempt + 1 < retry_attempts
      · simp only [if_pos h]
        rfl
      · simp only [if_neg h]
        rfl

/-- Events coming out of `execute_command` are never generation calls. -/
theorem filter_isGenerate_map_execEv (l : List Ev) :
    (l.map DEv.execEv).filter DEv.isGenerate = [] := by
  induction l with
  | nil => rfl
  | cons e rest ih => simp [DEv.isGenerate, ih]

/-! ## Claim theorems -/

/-- C1, counterexample: the claim says `generate_response` never raises to
the dispatch loop and returns Failure on a malformed response body.  But on
a 2xx response whose decoded JSON body is the well-formed-JSON yet
malformed-for-this-API object `{"content": 0}` (truthy, with a non-string
generated-text field), `.strip()` raises an uncaught `AttributeError`,
which propagates out of `generate_response`. -/
theorem generate_raises_on_nonstring_content :
    generate_response (.success (.obj [("content", Json.num 0)])) =
      .error (.attributeError "strip") := rfl

/-- C1, amended: `generate_response` returns Failure (never raises) on
every `RequestException` (connection refused, timeout, non-2xx status,
body that fails JSON decoding), on a falsy decoded body, and on a decoded
object whose `content` field is absent or trims to the empty string; when
the `content` field is a string, the trimmed string is returned (empty
counting as Failure for the caller).  Only a truthy non-object body or a
non-string `content` field makes it raise (see the counterexample). -/
theorem generate_response_failure_paths :
    (∀ reason, generate_response (.requestException reason) = .ok none) ∧
    (∀ body : Json, body.truthy = false → generate_response (.success body) = .ok none) ∧
    (∀ fields : List (String × Json), (fields.find? fun p => p.1 = "content") = none →
      ∃ r, generate_response (.success (.obj fields)) = .ok r ∧ isGenFailure r = true) ∧
    (∀ fields s, (fields.find? fun p => p.1 = "content") = some ("content", Json.str s) →
      generate_response (.success (.obj fields)) = .ok (some (pyStrip s))) ∧
    (∀ fields s, (fields.find? fun p => p.1 = "content") = some ("content", Json.str s) →
      pyStrip s = "" →
      ∃ r, generate_response (.success (.obj fields)) = .ok r ∧ isGenFailure r = true) := by
  refine ⟨fun reason => rfl, ?_, ?_, ?_, ?_⟩
  · intro body h
    simp only [generate_response, h, Bool.false_eq_true, if_false]
  · intro fields h
    cases fields with
    | nil => exact ⟨none, rfl, rfl⟩
    | cons p rest =>
      refine ⟨some "", ?_, rfl⟩
      simp only [generate_response, Json.truthy, List.isEmpty_cons, Bool.not_false, if_true,
        Json.get, h, Json.stripStr]
      rfl
  · intro fields s h
    cases fields with
    | nil => simp at h
    | cons p rest =>
      simp only [generate_response, Json.truthy, List.isEmpty_cons, Bool.not_false, if_true,
        Json.get, h, Json.stripStr]
  · intro fields s h hs
    cases fields with
    | nil => simp at h
    | cons p rest =>
      refine ⟨some (pyStrip s), ?_, ?_⟩
      · simp only [generate_response, Json.truthy, List.isEmpty_cons, Bool.not_false, if_true,
          Json.get, h, Json.stripStr]
      · simp [isGenFailure, hs]

/-- C1, witness for the amended theorem: a present string `content` field
is extracted and trimmed. -/
theorem generate_response_failure_paths_witness :
    generate_response (.success (.obj [("content", Json.str " ok ")])) =
      .ok (some (pyStrip " ok ")) :=
  generate_response_failure_paths.2.2.2.1 [("content", Json.str " ok ")] " ok " rfl

/-- C4: on sustained connection failure the supervisor makes exactly 5
connection attempts, each consecutive pair separated by exactly one
5-second sleep (and no sleep after the last), logs the fatal message, and
the loop terminates (so there is never a 6th attempt); the full trace is
pinned down exactly. -/
theorem retry_exhaustion_trace :
    (runMain fun _ => .connectFails).1 =
      [.connectAttempt, .logConnectFailed, .logConnError, .logRetry 2 5, .sleepSecs 5, .sessionStop,
       .connectAttempt, .logConnectFailed, .logConnError, .logRetry 3 5, .sleepSecs 5, .sessionStop,
       .connectAttempt, .logConnectFailed, .logConnError, .logRetry 4 5, .sleepSecs 5, .sessionStop,
       .connectAttempt, .logConnectFailed, .logConnError, .logRetry 5 5, .sleepSecs 5, .sessionStop,
       .connectAttempt, .logConnectFailed, .logConnError, .logFatal, .sessionStop] ∧
    (runMain fun _ => .connectFails).1.count MEv.connectAttempt = 5 ∧
    ((runMain fun _ => .connectFails).1.filter MEv.isAttemptOrSleep) =
      [.connectAttempt, .sleepSecs 5, .connectAttempt, .sleepSecs 5, .connectAttempt,
       .sleepSecs 5, .connectAttempt, .sleepSecs 5, .connectAttempt] ∧
    MEv.logFatal ∈ (runMain fun _ => .connectFails).1 ∧
    (runMain fun _ => .connectFails).2 = ExitWay.loopEnded := by
  refine ⟨by decide, by decide, by decide, by decide, by decide⟩

/-- C8: a message authored by the bot itself makes the dispatcher return
immediately: no generation call, no send, no log — an empty trace. -/
theorem self_message_noop (msg : Message) (backend : HttpOutcome) (w : World)
    (sendOutcome : Option String) (h : msg.actor = MUMBLE_USERNAME) :
    on_message_received msg backend w sendOutcome = [] := by
  unfold on_message_received
  rw [if_pos h]

/-- C8, witness. -/
theorem self_message_noop_witness :
    on_message_received ⟨"ChatBot", "hello"⟩ (.requestException "x") ⟨[], []⟩ none = [] :=
  self_message_noop ⟨"ChatBot", "hello"⟩ (.requestException "x") ⟨[], []⟩ none rfl

/-- C9: whatever the external world does on each attempt (sustained
failure, interrupt while connecting, interrupt while connected, interrupt
during the retry delay), the trace of `main` ends with `sessionStop`: the
`finally: if mumble: mumble.stop()` releases the session resource as the
last event on every exit path. -/
theorem session_released_on_exit (sched : Nat → IterOutcome) :
    ((runMain sched).1).getLast? = some MEv.sessionStop :=
  mainLoop_ends_with_stop retry_attempts 0 sched (by decide) (by omega)

/-- C2, counterexample: the claim says argument tokens are extracted
verbatim.  For the reply `"COMMAND:/mute COMMAND:bob"` the post-marker
token list is `["/mute", "COMMAND:bob"]` — a recognized verb with the
required one argument — so the claim demands `Mute{"COMMAND:bob"}`; but
`replace` removes every occurrence of `"COMMAND:"`, so the code parses
`Mute{"bob"}`. -/
theorem parse_verbatim_counterexample :
    parseReply "COMMAND:/mute COMMAND:bob" = .cmd (.mute "bob") ∧
    parseReply "COMMAND:/mute COMMAND:bob" ≠ .cmd (.mute "COMMAND:bob") := by decide

/-- C2, amended: for every marker-prefixed reply, when the PROCESSED text
(every `"COMMAND:"` occurrence removed, then trimmed) splits into a
recognized verb (case-insensitive) with the required argument count
(2 for `/move`, 1 for `/mute`, `/unmute`, `/kick`, 0 for `/help`), parsing
yields the matching structured variant whose arguments are the processed
tokens, in order. -/
theorem parse_recognized_verbs (reply : String)
    (hm : pyStartsWith reply "COMMAND:" = true) :
    (pyLower ((pySplit (commandText reply)).headD "") = "/move" →
      (pySplit (commandText reply)).length = 3 →
      parseReply reply = .cmd (.move ((pySplit (commandText reply)).getD 1 "")
        ((pySplit (commandText reply)).getD 2 ""))) ∧
    (pyLower ((pySplit (commandText reply)).headD "") = "/mute" →
      (pySplit (commandText reply)).length = 2 →
      parseReply reply = .cmd (.mute ((pySplit (commandText reply)).getD 1 ""))) ∧
    (pyLower ((pySplit (commandText reply)).headD "") = "/unmute" →
      (pySplit (commandText reply)).length = 2 →
      parseReply reply = .cmd (.unmute ((pySplit (commandText reply)).getD 1 ""))) ∧
    (pyLower ((pySplit (commandText reply)).headD "") = "/kick" →
      (pySplit (commandText reply)).length = 2 →
      parseReply reply = .cmd (.kick ((pySplit (commandText reply)).getD 1 ""))) ∧
    (pyLower ((pySplit (commandText reply)).headD "") = "/help" →
      (pySplit (commandText reply)).length = 1 →
      parseReply reply = .cmd Cmd.help) := by
  refine ⟨?_, ?_, ?_, ?_, ?_⟩ <;> intro hv hl <;>
    rw [List.headD_eq_head?_getD] at hv <;>
    (have hne : (pySplit (commandText reply)).isEmpty = false := by
        cases h : pySplit (commandText reply) with
        | nil => rw [h] at hl; simp at hl
        | cons a l => rfl
     simp [parseReply, parseCommand0, hm, hne, hv, hl])

/-- C2, witness for the amended theorem. -/
theorem parse_recognized_verbs_witness :
    parseReply "COMMAND:/move Alice Lounge" = .cmd (.move "Alice" "Lounge") :=
  (parse_recognized_verbs "COMMAND:/move Alice Lounge" rfl).1 rfl rfl

/-- C3, counterexample: the claim says a wrong argument count yields
Invalid and performs no message send; but `/help` has no arity check, so
`"COMMAND:/help extra"` is accepted as Help and the help text IS sent. -/
theorem help_arity_counterexample :
    execute_command "COMMAND:/help extra" ⟨["alice"], [("Root", 7)]⟩ =
      [.act (.sendText "Root" help_message), .log (.info "Displayed help message.")] ∧
    parseReply "COMMAND:/help extra" ≠ .cmd (.invalid "/help extra") := by decide

/-- C3, amended: for every marker-prefixed reply, on the PROCESSED text
(every `"COMMAND:"` occurrence removed, then trimmed): an empty token list
makes `parts[0]` raise `IndexError`, caught and logged, no action; a
non-empty token list whose verb fails every recognized guard — not
`/move` with 3 tokens, not `/mute`, `/unmute`, `/kick` with 2 tokens, and
not `/help` — parses as Invalid carrying the processed text, and the
executor only logs `Invalid command:` (no moderation action, no send);
but `/help` is accepted REGARDLESS of argument count. -/
theorem parse_invalid_commands (reply : String) (w : World)
    (hm : pyStartsWith reply "COMMAND:" = true) :
    (pySplit (commandText reply) = [] →
      execute_command reply w =
        [.log (.error ("Failed to execute command: " ++ pyErrorMsg .indexError))]) ∧
    (∀ p0 rest, pySplit (commandText reply) = p0 :: rest →
      (pyLower p0 = "/move" && (p0 :: rest).length = 3) = false →
      (pyLower p0 = "/mute" && (p0 :: rest).length = 2) = false →
      (pyLower p0 = "/unmute" && (p0 :: rest).length = 2) = false →
      (pyLower p0 = "/kick" && (p0 :: rest).length = 2) = false →
      pyLower p0 ≠ "/help" →
      parseReply reply = .cmd (.invalid (commandText reply)) ∧
      execute_command reply w = [.log (.error ("Invalid command: " ++ commandText reply))]) ∧
    (∀ p0 rest, pySplit (commandText reply) = p0 :: rest → pyLower p0 = "/help" →
      parseReply reply = .cmd Cmd.help) := by
  refine ⟨?_, ?_, ?_⟩
  · intro h
    simp [execute_command, execute_command_inner, hm, parseCommand0, h]
  · intro p0 rest hps h1 h2 h3 h4 h5
    have h1' : ¬(pyLower p0 = "/move" ∧ rest.length = 2) := by
      rintro ⟨ha, hb⟩
      rw [ha] at h1
      simp [hb] at h1
    have h2' : ¬(pyLower p0 = "/mute" ∧ rest.length = 1) := by
      rintro ⟨ha, hb⟩
      rw [ha] at h2
      simp [hb] at h2
    have h3' : ¬(pyLower p0 = "/unmute" ∧ rest.length = 1) := by
      rintro ⟨ha, hb⟩
      rw [ha] at h3
      simp [hb] at h3
    have h4' : ¬(pyLower p0 = "/kick" ∧ rest.length = 1) := by
      rintro ⟨ha, hb⟩
      rw [ha] at h4
      simp [hb] at h4
    constructor
    · simp [parseReply, parseCommand0, hm, hps, h1', h2', h3', h4', h5]
    · simp [execute_command, execute_command_inner, interpCmd, hm, parseCommand0, hps,
        h1', h2', h3', h4', h5]
  · intro p0 rest hps hv
    simp [parseReply, parseCommand0, hm, hps, hv]

/-- C3, witness for the amended theorem: an unrecognized verb. -/
theorem parse_invalid_commands_witness :
    parseReply "COMMAND:/frobnicate" = .cmd (.invalid "/frobnicate") ∧
    execute_command "COMMAND:/frobnicate" ⟨[], []⟩ =
      [.log (.error "Invalid command: /frobnicate")] :=
  (parse_invalid_commands "COMMAND:/frobnicate" ⟨[], []⟩ rfl).2.1 "/frobnicate" []
    rfl rfl rfl rfl rfl (by decide)

/-- C5: no exception escapes `execute_command`'s boundary — an inner
exception becomes a single `Failed to execute command` log line — and a
structured command whose username (or, for Move, channel) does not resolve
in the live registry produces exactly the logged not-found outcome and no
moderation action. -/
theorem executor_never_raises_and_notfound :
    (∀ command w e, execute_command_inner command w = .error e →
      execute_command command w =
        [.log (.error ("Failed to execute command: " ++ pyErrorMsg e))]) ∧
    (∀ reply w u, parseReply reply = .cmd (.mute u) → w.userByName u = none →
      execute_command reply w = [.log (.error ("User " ++ u ++ " not found."))]) ∧
    (∀ reply w u, parseReply reply = .cmd (.unmute u) → w.userByName u = none →
      execute_command reply w = [.log (.error ("User " ++ u ++ " not found."))]) ∧
    (∀ reply w u, parseReply reply = .cmd (.kick u) → w.userByName u = none →
      execute_command reply w = [.log (.error ("User " ++ u ++ " not found."))]) ∧
    (∀ reply w u c, parseReply reply = .cmd (.move u c) →
      w.userByName u = none ∨ w.channelByName c = none →
      execute_command reply w =
        [.log (.error ("User " ++ u ++ " or channel " ++ c ++ " not found."))]) := by
  refine ⟨?_, ?_, ?_, ?_, ?_⟩
  · intro command w e h
    simp [execute_command, h]
  · intro reply w u hp hu
    obtain ⟨hs, hc⟩ := parseReply_cmd hp
    simp [execute_command, execute_command_inner, hs, hc, interpCmd, hu]
  · intro reply w u hp hu
    obtain ⟨hs, hc⟩ := parseReply_cmd hp
    simp [execute_command, execute_command_inner, hs, hc, interpCmd, hu]
  · intro reply w u hp hu
    obtain ⟨hs, hc⟩ := parseReply_cmd hp
    simp [execute_command, execute_command_inner, hs, hc, interpCmd, hu]
  · intro reply w u c hp hor
    obtain ⟨hs, hc⟩ := parseReply_cmd hp
    rcases hor with h | h
    · cases hch : w.channelByName c <;>
        simp [execute_command, execute_command_inner, hs, hc, interpCmd, h, hch]
    · cases hu : w.userByName u <;>
        simp [execute_command, execute_command_inner, hs, hc, interpCmd, h, hu]

/-- C5, witness: muting a user absent from the registry. -/
theorem executor_never_raises_and_notfound_witness :
    execute_command "COMMAND:/mute ghost" ⟨[], []⟩ =
      [.log (.error "User ghost not found.")] :=
  executor_never_raises_and_notfound.2.1 "COMMAND:/mute ghost" ⟨[], []⟩ "ghost" rfl rfl

/-- C6: a non-empty generated reply that does not start with the marker is
sent verbatim to the configured home channel; if the home channel is gone
or the send raises, the failure is logged and the dispatcher returns
normally (the trace ends in a log event, not an escaping exception). -/
theorem plain_reply_dispatch (msg : Message) (backend : HttpOutcome) (w : World)
    (sendOutcome : Option String) (s : String)
    (ha : msg.actor ≠ MUMBLE_USERNAME)
    (hg : generate_response backend = .ok (some s))
    (hne : s ≠ "")
    (hnc : pyStartsWith s "COMMAND:" = false) :
    on_message_received msg backend w sendOutcome =
      [.logInfo ("Received message from " ++ msg.actor ++ ": " ++ pyStrip msg.message),
       .generateCall (INSTRUCTIONS ++ " " ++ pyStrip msg.message),
       .logInfo ("Generated response: " ++ s),
       (match w.channelByName MUMBLE_CHANNEL, sendOutcome with
        | none, _ =>
          DEv.logError ("Failed to send message to Mumble: " ++
            pyErrorMsg (.attributeError "send_text_message"))
        | some _, some m => DEv.logError ("Failed to send message to Mumble: " ++ m)
        | some _, none => DEv.sendText MUMBLE_CHANNEL s)] := by
  have hfail : isGenFailure (some s) = false := by simp [isGenFailure, hne]
  cases hch : w.channelByName MUMBLE_CHANNEL <;> cases sendOutcome <;>
    simp [on_message_received, ha, hg, hfail, hnc, hch]

/-- C6, witness: a plain reply is delivered verbatim to the home channel. -/
theorem plain_reply_dispatch_witness :
    on_message_received ⟨"alice", " hi "⟩
        (.success (.obj [("content", .str "Sure, happy to help!")]))
        ⟨[], [("Root", 0)]⟩ none =
      [.logInfo "Received message from alice: hi",
       .generateCall (INSTRUCTIONS ++ " " ++ "hi"),
       .logInfo "Generated response: Sure, happy to help!",
       .sendText "Root" "Sure, happy to help!"] :=
  plain_reply_dispatch ⟨"alice", " hi "⟩
    (.success (.obj [("content", .str "Sure, happy to help!")]))
    ⟨[], [("Root", 0)]⟩ none "Sure, happy to help!" (by decide) rfl (by decide) rfl

/-- C7, counterexample: the claim says only the LEADING marker is removed
and later occurrences of `"COMMAND:"` are preserved in the command tokens;
but the code's `replace` removes every occurrence. -/
theorem marker_preserved_counterexample :
    commandText "COMMAND:/kick COMMAND:bob" = "/kick bob" ∧
    commandText "COMMAND:/kick COMMAND:bob" ≠ "/kick COMMAND:bob" := by decide

/-- C7, amended: for every marker-prefixed reply, the command text used
for verb and argument extraction is the reply with the leading marker
removed, every REMAINING occurrence of `"COMMAND:"` also removed, and
surrounding whitespace trimmed. -/
theorem marker_stripping_amended (reply : String)
    (hm : pyStartsWith reply "COMMAND:" = true) :
    commandText reply = pyStrip (pyReplace (stripLeadingMarker reply) "COMMAND:" "") := by
  unfold commandText
  rw [replace_drop_marker reply hm]

/-- C7, witness for the amended theorem. -/
theorem marker_stripping_amended_witness :
    commandText "COMMAND: /move a b" =
      pyStrip (pyReplace (stripLeadingMarker "COMMAND: /move a b") "COMMAND:" "") :=
  marker_stripping_amended "COMMAND: /move a b" rfl

/-- C10: for every inbound message, the dispatcher performs no generation
call when the message is self-authored, and otherwise exactly one, whose
payload prompt is exactly `INSTRUCTIONS`, one space, and the
whitespace-trimmed message text. -/
theorem prompt_construction (msg : Message) (backend : HttpOutcome) (w : World)
    (sendOutcome : Option String) :
    (on_message_received msg backend w sendOutcome).filter DEv.isGenerate =
      if msg.actor = MUMBLE_USERNAME then []
      else [.generateCall (INSTRUCTIONS ++ " " ++ pyStrip msg.message)] := by
  by_cases ha : msg.actor = MUMBLE_USERNAME
  · simp [on_message_received, ha]
  · rw [if_neg ha]
    cases hg : generate_response backend with
    | error e => simp [on_message_received, ha, hg, DEv.isGenerate]
    | ok response =>
      by_cases hf : isGenFailure response = true
      · simp [on_message_received, ha, hg, hf, DEv.isGenerate]
      · rw [Bool.not_eq_true] at hf
        by_cases hcm : pyStartsWith (response.getD "") "COMMAND:" = true
        · simp [on_message_received, ha, hg, hf, hcm, DEv.isGenerate,
            filter_isGenerate_map_execEv]
        · rw [Bool.not_eq_true] at hcm
          cases hch : w.channelByName MUMBLE_CHANNEL with
          | none => simp [on_message_received, ha, hg, hf, hcm, hch, DEv.isGenerate]
          | some ch =>
            cases sendOutcome <;>
              simp [on_message_received, ha, hg, hf, hcm, hch, DEv.isGenerate]
